import Mathlib

/-!
Shallow embedding of the dSyncPay payment/subscription lifecycle core
(src/index.mjs): metadata store, credential cache, PayPal and Coinbase
provider adapters, status dispatch, webhook authentication and the
callback dispatcher.  Network calls and the HMAC primitive are external
effects; they enter the embedding as explicit parameters (an
`Except JsError _` outcome for each network call, a function parameter
for HMAC-SHA256).  JavaScript numbers are idealised as rationals.
-/

namespace DSyncPay

/-- Opaque caller-supplied metadata object, modelled as an association list. -/
abbrev Metadata := List (String × String)

/-- The in-memory Metadata Store (`this.metadataCache`, a JS `Map`),
modelled as an association list from key to metadata. -/
abbrev MetaStore := List (String × Metadata)

/-- JS `Map.prototype.set`: insert or replace the entry for `k`. -/
def storeSet (s : MetaStore) (k : String) (v : Metadata) : MetaStore :=
  (k, v) :: s.filter (fun p => p.1 ≠ k)

/-- JS `Map.prototype.get`: the stored value, or `none` when absent. -/
def storeGet (s : MetaStore) (k : String) : Option Metadata :=
  (s.find? (fun p => p.1 = k)).map Prod.snd

/-- JS `Map.prototype.delete`: remove the entry for `k` (no-op when absent). -/
def storeDelete (s : MetaStore) (k : String) : MetaStore :=
  s.filter (fun p => p.1 ≠ k)

/-- JS `Map.prototype.has`: whether `k` is a key of the store. -/
def storeContains (s : MetaStore) (k : String) : Bool :=
  s.any (fun p => p.1 = k)

/-- Errors a JS function in this library can throw: validation `Error`s,
non-2xx HTTP responses raised by `request`, and `TypeError`s from reading
a property of `undefined`. -/
inductive JsError
  | validation (msg : String)
  | http (status : Nat)
  | typeError (msg : String)
deriving DecidableEq, Repr

/-- JS truthiness of an optional string (`undefined` and `""` are falsy). -/
def jsTruthyStr : Option String → Bool
  | none => false
  | some s => s ≠ ""

/-- JS truthiness of an optional number (`undefined` and `0` are falsy). -/
def jsTruthyNum : Option ℚ → Bool
  | none => false
  | some q => q ≠ 0

/-- JS `a || b` on optional strings: `b` when `a` is falsy. -/
def jsOrStr (a b : Option String) : Option String :=
  if jsTruthyStr a then a else b

/-- JS `Number.prototype.toFixed(2)` (followed by `parseFloat`), idealised
over rationals: round half-up to 2 decimal places. -/
def jsToFixed2 (q : ℚ) : ℚ :=
  (⌊q * 100 + 1 / 2⌋ : ℚ) / 100

/-- Modelled from the spec: `round(x, 2)`, rounding to 2 decimal places,
stated with Mathlib's `round` to compare against `jsToFixed2`. -/
def specRound2 (q : ℚ) : ℚ :=
  ((round (q * 100) : ℤ) : ℚ) / 100

/-- One attempted callback dispatch: the callback slot name and, for
`onError`, the `type` tag of the failing operation. -/
structure Dispatch where
  callback : String
  errorType : Option String := none
deriving DecidableEq, Repr

/-- Outcome of one adapter operation: the value returned or error thrown,
the metadata store afterwards, the callbacks dispatched during the call,
and the TTL deletions scheduled by `setTimeout` (key, delay in ms). -/
structure Outcome (α : Type) where
  result : Except JsError α
  store : MetaStore
  dispatched : List Dispatch
  scheduled : List (String × Int) := []

/-! ## Event dispatcher (`emit`, src/index.mjs lines 79-88)

The behaviour of a host-supplied callback is a parameter: for each slot
name, `none` when no callback is registered, `some (.ok ())` when it
returns normally, `some (.error e)` when it throws `e`. -/

/-- Behaviour of the host's callback registry. -/
abbrev Callbacks := String → Option (Except String Unit)

/-- The dispatcher `emit(event, data)`: looks up the callback and invokes
it inside try/catch; a thrown exception is caught and logged
(`console.error`), never propagated. Returns the log lines produced. -/
def emit (cbs : Callbacks) (event : String) : Except String (List String) :=
  match cbs event with
  | none => .ok []
  | some (.ok _) => .ok []
  | some (.error e) => .ok ["callback error: " ++ e]

/-- Run every dispatch of an operation through `emit`, collecting logs;
an uncaught callback exception (impossible, by `emit`) would abort here. -/
def runCallbacks (cbs : Callbacks) : List Dispatch → Except String (List String)
  | [] => .ok []
  | d :: ds => do
    let l ← emit cbs d.callback
    let ls ← runCallbacks cbs ds
    pure (l ++ ls)

/-! ## PayPal credential cache (`getAccessToken`, src/index.mjs lines 158-193) -/

deriving instance DecidableEq for Except

/-- Per-adapter token cache (`this.tokenCache`, `this.tokenExpiry`), both
initially `null`. -/
structure TokenState where
  tokenCache : Option String := none
  tokenExpiry : Option Int := none
deriving DecidableEq, Repr

/-- Outcome of a `getAccessToken` call: the token returned or error
thrown, the cache afterwards, the number of network credential exchanges
performed (0 or 1), and the callbacks dispatched. -/
structure TokenOutcome where
  result : Except JsError String
  state : TokenState
  exchanges : Nat
  dispatched : List Dispatch
deriving DecidableEq, Repr

/-- JS `this.tokenExpiry > Date.now()` (`null > now` is false). -/
def expiryAfter (expiry : Option Int) (now : Int) : Bool :=
  match expiry with
  | none => false
  | some e => now < e

/-- `getAccessToken()`: returns the cached token when the cache is truthy
and unexpired; otherwise performs one credential exchange (outcome `net`),
stores the token with a fixed 1-hour validity window, and returns it.  On
exchange failure it dispatches `onError` with type `auth` and rethrows. -/
def getAccessToken (st : TokenState) (now : Int) (net : Except JsError String) :
    TokenOutcome :=
  if jsTruthyStr st.tokenCache && expiryAfter st.tokenExpiry now then
    { result := .ok (st.tokenCache.getD ""), state := st, exchanges := 0, dispatched := [] }
  else
    match net with
    | .ok token =>
      { result := .ok token
        state := { tokenCache := some token, tokenExpiry := some (now + 60 * 60 * 1000) }
        exchanges := 1
        dispatched := [] }
    | .error e =>
      { result := .error e
        state := st
        exchanges := 1
        dispatched := [{ callback := "onError", errorType := some "auth" }] }

/-! ## PayPal order creation (`createOrder`, src/index.mjs lines 195-285) -/

/-- One entry of a PayPal `links` array. -/
structure Link where
  rel : String
  href : String
deriving DecidableEq, Repr

/-- Provider response to order or subscription creation: the provider id
and the `links` array. -/
structure CreateResponse where
  id : String
  links : List Link
deriving DecidableEq, Repr

/-- `response.links.find(link => link.rel === "approve")`. -/
def findApprove (links : List Link) : Option Link :=
  links.find? (fun l => l.rel == "approve")

/-- Arguments of `createOrder` after destructuring: `title` and `price`
are optional (validated by truthiness), `quantity` defaults to 1,
`currency` to `'EUR'`, `customId` to a generated id, `metadata` to `{}`. -/
structure CreateOrderArgs where
  title : Option String
  description : String := "no description"
  price : Option ℚ
  quantity : ℚ := 1
  currency : String := "EUR"
  customId : String
  metadata : Metadata := []
deriving DecidableEq, Repr

/-- Result object of a successful `createOrder`. -/
structure CreateOrderResult where
  provider : String
  type : String
  approvalUrl : String
  transactionId : String
  orderId : String
  amount : ℚ
  currency : String
  metadata : Metadata
  rawResponse : CreateResponse
deriving DecidableEq, Repr

/-- `createOrder(...)`: validates `title` and `price` (throwing before any
network call and before the try/catch), fetches an access token (outcome
`tokenRes`; on failure the nested `getAccessToken` dispatches the `auth`
error), computes `totalAmount = (price * quantity).toFixed(2)`, posts the
order (outcome `net`), extracts the approval link (a missing link throws a
`TypeError` inside the try), stores `metadata` under `response.id` with a
1-hour TTL deletion scheduled, dispatches `onPaymentCreated` and returns.
A failure inside the try dispatches `onError` with type `order_creation`
and rethrows. -/
def createOrder (args : CreateOrderArgs) (tokenRes : Except JsError String)
    (net : Except JsError CreateResponse) (st : MetaStore) :
    Outcome CreateOrderResult :=
  if ¬ jsTruthyStr args.title then
    { result := .error (.validation "missing title"), store := st, dispatched := [] }
  else if ¬ jsTruthyNum args.price then
    { result := .error (.validation "missing price"), store := st, dispatched := [] }
  else
    match tokenRes with
    | .error e =>
      { result := .error e, store := st
        dispatched := [{ callback := "onError", errorType := some "auth" }] }
    | .ok _ =>
      let price := args.price.getD 0
      let totalAmount := jsToFixed2 (price * args.quantity)
      match net with
      | .error e =>
        { result := .error e, store := st
          dispatched := [{ callback := "onError", errorType := some "order_creation" }] }
      | .ok resp =>
        match findApprove resp.links with
        | none =>
          { result := .error (.typeError "cannot read href of undefined"), store := st
            dispatched := [{ callback := "onError", errorType := some "order_creation" }] }
        | some link =>
          { result := .ok
              { provider := "paypal"
                type := "order"
                approvalUrl := link.href
                transactionId := args.customId
                orderId := resp.id
                amount := totalAmount
                currency := args.currency
                metadata := args.metadata
                rawResponse := resp }
            store := storeSet st resp.id args.metadata
            dispatched := [{ callback := "onPaymentCreated" }]
            scheduled := [(resp.id, 60 * 60 * 1000)] }

/-! ## PayPal order verification (`verifyOrder`, src/index.mjs lines 287-367) -/

/-- A PayPal amount object (`value` as returned by `parseFloat`,
`currency_code`). -/
structure PayAmount where
  value : ℚ
  currency_code : String
deriving DecidableEq, Repr

/-- One capture record under `purchase_unit.payments.captures`. -/
structure Capture where
  amount : PayAmount
  custom_id : Option String := none
deriving DecidableEq, Repr

/-- The `payments` object of a purchase unit. -/
structure Payments where
  captures : List Capture
deriving DecidableEq, Repr

/-- One purchase unit of an order response; every field may be absent. -/
structure PurchaseUnit where
  custom_id : Option String := none
  amount : Option PayAmount := none
  payments : Option Payments := none
deriving DecidableEq, Repr

instance : Inhabited PurchaseUnit := ⟨{}⟩

/-- A PayPal order (or capture) response. -/
structure OrderResponse where
  id : String
  status : String
  purchase_units : List PurchaseUnit := []
deriving DecidableEq, Repr

/-- `purchaseUnit.payments?.captures?.[0]` as an optional capture. -/
def firstCapture (pu : PurchaseUnit) : Option Capture :=
  match pu.payments with
  | none => none
  | some p => p.captures.head?

/-- Amount/transaction-id extraction of `verifyOrder` (lines 318-328):
start from `amount = 0` and `customId = purchaseUnit.custom_id`; a first
capture overrides both (its `custom_id` falling back, via JS `||`, to the
purchase unit's); otherwise a present `purchase_unit.amount` supplies the
amount. -/
def extractPayment (pu : PurchaseUnit) : ℚ × Option String :=
  match firstCapture pu with
  | some c => (c.amount.value, jsOrStr c.custom_id pu.custom_id)
  | none =>
    match pu.amount with
    | some a => (a.value, pu.custom_id)
    | none => (0, pu.custom_id)

/-- Currency extraction of `verifyOrder` (line 339): first capture's
currency, else the purchase unit's, else `'EUR'` (JS `||` chain). -/
def extractCurrency (pu : PurchaseUnit) : String :=
  (jsOrStr ((firstCapture pu).map (fun c => c.amount.currency_code))
    (jsOrStr (pu.amount.map (fun a => a.currency_code)) (some "EUR"))).getD "EUR"

/-- Result object of a successful `verifyOrder`. -/
structure VerifyOrderResult where
  provider : String
  type : String
  status : String
  transactionId : Option String
  orderId : String
  amount : ℚ
  currency : String
  metadata : Metadata
  rawResponse : OrderResponse
deriving DecidableEq, Repr

/-- Lifecycle dispatch of `verifyOrder` (lines 344-350): `COMPLETED` fires
`onPaymentCompleted`, `VOIDED`/`CANCELLED` fire `onPaymentCancelled`, and
every other status fires `onPaymentFailed`. -/
def orderDispatch (status : String) : Dispatch :=
  if status = "COMPLETED" then { callback := "onPaymentCompleted" }
  else if status = "VOIDED" ∨ status = "CANCELLED" then { callback := "onPaymentCancelled" }
  else { callback := "onPaymentFailed" }

/-- `verifyOrder(orderId)`: fetches the order (outcome `net`; the token
fetch precedes the try/catch, so a token failure leaves the store
untouched), on status `APPROVED` issues a capture call (outcome `cap`)
whose response replaces the order response, extracts amount, custom id
and currency with the fallback chain, reads metadata (absent metadata
defaults to `{}`), dispatches exactly one lifecycle callback, deletes the
store entry and returns.  On a failure inside the try it dispatches
`onError` with type `order_verification`, deletes the store entry and
rethrows. -/
def verifyOrder (orderId : String) (tokenRes : Except JsError String)
    (net : Except JsError OrderResponse) (cap : Except JsError OrderResponse)
    (st : MetaStore) : Outcome VerifyOrderResult :=
  match tokenRes with
  | .error e =>
    { result := .error e, store := st
      dispatched := [{ callback := "onError", errorType := some "auth" }] }
  | .ok _ =>
    let failOutcome : JsError → Outcome VerifyOrderResult := fun e =>
      { result := .error e
        store := storeDelete st orderId
        dispatched := [{ callback := "onError", errorType := some "order_verification" }] }
    match net with
    | .error e => failOutcome e
    | .ok resp0 =>
      let finalResp : Except JsError OrderResponse :=
        if resp0.status = "APPROVED" then cap else .ok resp0
      match finalResp with
      | .error e => failOutcome e
      | .ok resp =>
        let pu := resp.purchase_units.head?.getD {}
        let extracted := extractPayment pu
        let metadata := (storeGet st orderId).getD []
        let result : VerifyOrderResult :=
          { provider := "paypal"
            type := "order"
            status := resp.status
            transactionId := extracted.2
            orderId := resp.id
            amount := extracted.1
            currency := extractCurrency pu
            metadata := metadata
            rawResponse := resp }
        { result := .ok result
          store := storeDelete st orderId
          dispatched := [orderDispatch resp.status] }

/-! ## PayPal subscriptions (`createSubscription` lines 467-529,
`verifySubscription` lines 531-578) -/

/-- Arguments of `createSubscription` after destructuring. -/
structure CreateSubscriptionArgs where
  planId : Option String
  customId : String
  metadata : Metadata := []
deriving DecidableEq, Repr

/-- Result object of a successful `createSubscription`. -/
structure CreateSubscriptionResult where
  provider : String
  type : String
  approvalUrl : String
  transactionId : String
  subscriptionId : String
  planId : String
  metadata : Metadata
  rawResponse : CreateResponse
deriving DecidableEq, Repr

/-- `createSubscription(...)`: validates `planId`, posts the subscription,
extracts the approval link, stores `metadata` under `response.id` with a
1-hour TTL deletion scheduled, dispatches `onSubscriptionCreated` and
returns; a failure inside the try dispatches `onError` with type
`subscription_creation` and rethrows. -/
def createSubscription (args : CreateSubscriptionArgs)
    (tokenRes : Except JsError String) (net : Except JsError CreateResponse)
    (st : MetaStore) : Outcome CreateSubscriptionResult :=
  if ¬ jsTruthyStr args.planId then
    { result := .error (.validation "missing planId"), store := st, dispatched := [] }
  else
    match tokenRes with
    | .error e =>
      { result := .error e, store := st
        dispatched := [{ callback := "onError", errorType := some "auth" }] }
    | .ok _ =>
      match net with
      | .error e =>
        { result := .error e, store := st
          dispatched := [{ callback := "onError", errorType := some "subscription_creation" }] }
      | .ok resp =>
        match findApprove resp.links with
        | none =>
          { result := .error (.typeError "cannot read href of undefined"), store := st
            dispatched := [{ callback := "onError", errorType := some "subscription_creation" }] }
        | some link =>
          { result := .ok
              { provider := "paypal"
                type := "subscription"
                approvalUrl := link.href
                transactionId := args.customId
                subscriptionId := resp.id
                planId := args.planId.getD ""
                metadata := args.metadata
                rawResponse := resp }
            store := storeSet st resp.id args.metadata
            dispatched := [{ callback := "onSubscriptionCreated" }]
            scheduled := [(resp.id, 60 * 60 * 1000)] }

/-- A PayPal subscription response. -/
structure SubscriptionResponse where
  id : String
  status : String
  plan_id : String
  custom_id : Option String := none
deriving DecidableEq, Repr

/-- Result object of a successful `verifySubscription`. -/
structure VerifySubscriptionResult where
  provider : String
  type : String
  status : String
  subscriptionId : String
  planId : String
  customId : Option String
  metadata : Metadata
  rawResponse : SubscriptionResponse
deriving DecidableEq, Repr

/-- Lifecycle dispatch of `verifySubscription` (lines 557-561): `ACTIVE`
fires `onSubscriptionActivated`, `CANCELLED` fires
`onSubscriptionCancelled`, and any other status fires nothing. -/
def subscriptionDispatch (status : String) : List Dispatch :=
  if status = "ACTIVE" then [{ callback := "onSubscriptionActivated" }]
  else if status = "CANCELLED" then [{ callback := "onSubscriptionCancelled" }]
  else []

/-- `verifySubscription(subscriptionId)`: fetches the subscription, reads
metadata, dispatches per `subscriptionDispatch`, deletes the store entry
and returns; on failure inside the try it dispatches `onError` with type
`subscription_verification`, deletes the store entry and rethrows. -/
def verifySubscription (subscriptionId : String)
    (tokenRes : Except JsError String) (net : Except JsError SubscriptionResponse)
    (st : MetaStore) : Outcome VerifySubscriptionResult :=
  match tokenRes with
  | .error e =>
    { result := .error e, store := st
      dispatched := [{ callback := "onError", errorType := some "auth" }] }
  | .ok _ =>
    match net with
    | .error e =>
      { result := .error e
        store := storeDelete st subscriptionId
        dispatched := [{ callback := "onError", errorType := some "subscription_verification" }] }
    | .ok resp =>
      let metadata := (storeGet st subscriptionId).getD []
      { result := .ok
          { provider := "paypal"
            type := "subscription"
            status := resp.status
            subscriptionId := resp.id
            planId := resp.plan_id
            customId := resp.custom_id
            metadata := metadata
            rawResponse := resp }
        store := storeDelete st subscriptionId
        dispatched := subscriptionDispatch resp.status }

/-! ## Coinbase adapter (`createCharge` lines 633-699, `verifyCharge`
lines 701-747, `verifyWebhook` lines 749-754) -/

/-- Arguments of `createCharge` after destructuring. -/
structure CreateChargeArgs where
  title : Option String
  description : String := "no description"
  price : Option ℚ
  quantity : ℚ := 1
  currency : String := "EUR"
  metadata : Metadata := []
deriving DecidableEq, Repr

/-- One entry of a Coinbase charge timeline. -/
structure TimelineEntry where
  status : String
deriving DecidableEq, Repr

/-- The `pricing.local` object of a Coinbase charge. -/
structure LocalPrice where
  amount : ℚ
  currency : String
deriving DecidableEq, Repr

/-- The `pricing` object of a Coinbase charge; the JSON key is `local`,
a reserved word here. -/
structure ChargePricing where
  localPrice : LocalPrice
deriving DecidableEq, Repr

/-- A Coinbase charge record (`response.data`). -/
structure Charge where
  id : String
  code : String
  hosted_url : String := ""
  timeline : List TimelineEntry := []
  pricing : ChargePricing
  metadata : Metadata := []
deriving DecidableEq, Repr

/-- Result object of a successful `createCharge`. -/
structure CreateChargeResult where
  provider : String
  type : String
  hostedUrl : String
  chargeId : String
  chargeCode : String
  amount : ℚ
  currency : String
  metadata : Metadata
  rawResponse : Charge
deriving DecidableEq, Repr

/-- `createCharge(...)`: validates `title` and `price` (before the
try/catch), computes `totalAmount = (price * quantity).toFixed(2)`, posts
the charge (no token exchange, no metadata stored in the shared store),
dispatches `onPaymentCreated` and returns; a provider failure dispatches
`onError` with type `charge_creation` and rethrows. -/
def createCharge (args : CreateChargeArgs) (net : Except JsError Charge)
    (st : MetaStore) : Outcome CreateChargeResult :=
  if ¬ jsTruthyStr args.title then
    { result := .error (.validation "missing title"), store := st, dispatched := [] }
  else if ¬ jsTruthyNum args.price then
    { result := .error (.validation "missing price"), store := st, dispatched := [] }
  else
    let price := args.price.getD 0
    let totalAmount := jsToFixed2 (price * args.quantity)
    match net with
    | .error e =>
      { result := .error e, store := st
        dispatched := [{ callback := "onError", errorType := some "charge_creation" }] }
    | .ok charge =>
      { result := .ok
          { provider := "coinbase"
            type := "charge"
            hostedUrl := charge.hosted_url
            chargeId := charge.id
            chargeCode := charge.code
            amount := totalAmount
            currency := args.currency
            metadata := args.metadata
            rawResponse := charge }
        store := st
        dispatched := [{ callback := "onPaymentCreated" }] }

/-- Result object of a successful `verifyCharge`; `status` is the last
timeline entry's status (`undefined` when the timeline is empty). -/
structure VerifyChargeResult where
  provider : String
  type : String
  status : Option String
  chargeId : String
  chargeCode : String
  amount : ℚ
  currency : String
  metadata : Metadata
  rawResponse : Charge
deriving DecidableEq, Repr

/-- Lifecycle dispatch of `verifyCharge` (lines 729-735): `COMPLETED`
fires `onPaymentCompleted`, `CANCELED` fires `onPaymentCancelled`,
`EXPIRED`/`UNRESOLVED` fire `onPaymentFailed`, and any other (or missing)
status fires nothing. -/
def chargeDispatch (status : Option String) : List Dispatch :=
  if status = some "COMPLETED" then [{ callback := "onPaymentCompleted" }]
  else if status = some "CANCELED" then [{ callback := "onPaymentCancelled" }]
  else if status = some "EXPIRED" ∨ status = some "UNRESOLVED" then
    [{ callback := "onPaymentFailed" }]
  else []

/-- `charge.timeline[charge.timeline.length - 1]?.status`. -/
def latestStatus (charge : Charge) : Option String :=
  charge.timeline.getLast?.map (fun t => t.status)

/-- `verifyCharge(chargeId)`: fetches the charge, takes the last timeline
entry as current status, dispatches per `chargeDispatch` and returns (the
shared store is never touched); a provider failure dispatches `onError`
with type `charge_verification` and rethrows. -/
def verifyCharge (chargeId : String) (net : Except JsError Charge)
    (st : MetaStore) : Outcome VerifyChargeResult :=
  match net with
  | .error e =>
    { result := .error e, store := st
      dispatched := [{ callback := "onError", errorType := some "charge_verification" }] }
  | .ok charge =>
    let status := latestStatus charge
    { result := .ok
        { provider := "coinbase"
          type := "charge"
          status := status
          chargeId := charge.id
          chargeCode := charge.code
          amount := charge.pricing.localPrice.amount
          currency := charge.pricing.localPrice.currency
          metadata := charge.metadata
          rawResponse := charge }
      store := st
      dispatched := chargeDispatch status }

/-- `verifyWebhook(payload, signature, secret)`: recomputes the hex
HMAC-SHA256 of the payload under the secret and compares it to the
signature header.  The HMAC primitive is the external `crypto` library,
passed as the function parameter `hmacSha256 secret payload`; a missing
header (`signature === undefined`) compares unequal to any string. -/
def verifyWebhook (hmacSha256 : String → String → String) (payload : String)
    (signature : Option String) (secret : String) : Bool :=
  match signature with
  | none => false
  | some s => hmacSha256 secret payload == s

/-! ## Helper accessors and store lemmas -/

/-- The successful result of an operation outcome, when there is one. -/
def okResult {α : Type} (o : Outcome α) : Option α :=
  o.result.toOption

/-- Deleting a key removes it from the store. -/
theorem storeContains_storeDelete (s : MetaStore) (k : String) :
    storeContains (storeDelete s k) k = false := by
  simp only [storeContains, storeDelete, List.any_eq_false]
  intro p hp
  have := (List.mem_filter.mp hp).2
  simpa using this

/-- Deleting an absent key is a no-op. -/
theorem storeDelete_absent (s : MetaStore) (k : String)
    (h : storeContains s k = false) : storeDelete s k = s := by
  unfold storeDelete
  rw [List.filter_eq_self]
  intro p hp
  have := (List.any_eq_false.mp h) p hp
  simpa using this

/-- Setting a key makes it present. -/
theorem storeContains_storeSet (s : MetaStore) (k : String) (v : Metadata) :
    storeContains (storeSet s k v) k = true := by
  simp [storeContains, storeSet]

/-- Setting a key stores exactly the given value. -/
theorem storeGet_storeSet (s : MetaStore) (k : String) (v : Metadata) :
    storeGet (storeSet s k v) k = some v := by
  simp [storeGet, storeSet, List.find?]

/-- C2: every `verifyOrder` / `verifySubscription` call that gets past the
token fetch leaves the Metadata Store without the transaction's key,
whether the provider call succeeded or failed; and deleting an absent key
is a no-op, so repeated verification calls are safe. -/
theorem verify_cleanup_idempotent (orderId subId tok : String)
    (net cap : Except JsError OrderResponse)
    (snet : Except JsError SubscriptionResponse) (st st2 : MetaStore)
    (s : MetaStore) (k : String) :
    storeContains (verifyOrder orderId (.ok tok) net cap st).store orderId = false ∧
    storeContains (verifySubscription subId (.ok tok) snet st2).store subId = false ∧
    (storeContains s k = false → storeDelete s k = s) := by
  refine ⟨?_, ?_, storeDelete_absent s k⟩
  · unfold verifyOrder
    cases net with
    | error e => exact storeContains_storeDelete st orderId
    | ok resp0 =>
      dsimp only
      by_cases h : resp0.status = "APPROVED"
      · rw [if_pos h]
        cases cap with
        | error e => exact storeContains_storeDelete st orderId
        | ok resp => exact storeContains_storeDelete st orderId
      · rw [if_neg h]
        exact storeContains_storeDelete st orderId
  · unfold verifySubscription
    cases snet with
    | error e => exact storeContains_storeDelete st2 subId
    | ok resp => exact storeContains_storeDelete st2 subId

/-- C2 witness: the cleanup theorem applied at a concrete completed order,
a concrete active subscription and a concrete absent key. -/
theorem verify_cleanup_idempotent_witness :
    storeContains (verifyOrder "ORD-1" (.ok "tok")
      (.ok { id := "ORD-1", status := "COMPLETED" }) (.ok { id := "ORD-1", status := "COMPLETED" })
      [("ORD-1", [("k", "v")])]).store "ORD-1" = false ∧
    storeContains (verifySubscription "SUB-1" (.ok "tok")
      (.ok { id := "SUB-1", status := "ACTIVE", plan_id := "P-1" })
      [("SUB-1", [])]).store "SUB-1" = false ∧
    storeDelete [("other", [])] "ORD-9" = [("other", [])] := by
  have h := verify_cleanup_idempotent "ORD-1" "SUB-1" "tok"
    (.ok { id := "ORD-1", status := "COMPLETED" }) (.ok { id := "ORD-1", status := "COMPLETED" })
    (.ok { id := "SUB-1", status := "ACTIVE", plan_id := "P-1" })
    [("ORD-1", [("k", "v")])] [("SUB-1", [])] [("other", [])] "ORD-9"
  exact ⟨h.1, h.2.1, h.2.2 (by decide)⟩

/-! ## Webhook authentication theorems -/

/-- C4: `verifyWebhook` accepts exactly the hex HMAC-SHA256 of the payload
under the shared secret: the correct signature verifies; a signature
computed under a different secret is rejected, and the signature of the
original payload is rejected for a single-byte mutation of the payload —
in both cases granted the distinctness of the corresponding HMAC outputs,
which is the collision-resistance property of the external primitive. -/
theorem verifyWebhook_hmac_auth (hmacSha256 : String → String → String)
    (payload payloadMut secret wrongSecret : String)
    (hmut : payloadMut ≠ payload)
    (hw : hmacSha256 secret payload ≠ hmacSha256 wrongSecret payload)
    (hm : hmacSha256 secret payloadMut ≠ hmacSha256 secret payload) :
    verifyWebhook hmacSha256 payload (some (hmacSha256 secret payload)) secret = true ∧
    verifyWebhook hmacSha256 payload (some (hmacSha256 wrongSecret payload)) secret = false ∧
    verifyWebhook hmacSha256 payloadMut (some (hmacSha256 secret payload)) secret = false := by
  refine ⟨?_, ?_, ?_⟩
  · simp [verifyWebhook]
  · simp only [verifyWebhook, beq_eq_false_iff_ne, ne_eq]
    exact hw
  · simp only [verifyWebhook, beq_eq_false_iff_ne, ne_eq]
    exact hm

/-- C4 witness: the authentication theorem applied with a concrete
(injective) stand-in for the HMAC primitive and concrete strings. -/
theorem verifyWebhook_hmac_auth_witness :
    verifyWebhook (fun k p => k ++ ":" ++ p) "pay" (some ("sec" ++ ":" ++ "pay")) "sec" = true ∧
    verifyWebhook (fun k p => k ++ ":" ++ p) "pay" (some ("bad" ++ ":" ++ "pay")) "sec" = false ∧
    verifyWebhook (fun k p => k ++ ":" ++ p) "qay" (some ("sec" ++ ":" ++ "pay")) "sec" = false := by
  exact verifyWebhook_hmac_auth (fun k p => k ++ ":" ++ p) "pay" "qay" "sec" "bad"
    (by decide) (by decide) (by decide)

/-- C8: `verifyWebhook` is a total boolean function of its (typed) inputs —
it returns a value, never throws — and it returns `false` both when the
signature header is absent (`undefined`) and when the supplied signature
differs from the recomputed HMAC. -/
theorem verifyWebhook_never_throws (hmacSha256 : String → String → String)
    (payload secret : String) :
    verifyWebhook hmacSha256 payload none secret = false ∧
    (∀ s, s ≠ hmacSha256 secret payload →
      verifyWebhook hmacSha256 payload (some s) secret = false) ∧
    (∀ sig, verifyWebhook hmacSha256 payload sig secret = true ↔
      ∃ s, sig = some s ∧ hmacSha256 secret payload = s) := by
  refine ⟨rfl, ?_, ?_⟩
  · intro s hs
    simp only [verifyWebhook, beq_eq_false_iff_ne, ne_eq]
    exact fun h => hs h.symm
  · intro sig
    cases sig with
    | none => simp [verifyWebhook]
    | some s => simp [verifyWebhook]

/-- C8 witness: the totality theorem applied at a concrete payload and
secret, with the mismatch hypothesis discharged concretely. -/
theorem verifyWebhook_never_throws_witness :
    verifyWebhook (fun k p => k ++ ":" ++ p) "pay" none "sec" = false ∧
    verifyWebhook (fun k p => k ++ ":" ++ p) "pay" (some "nope") "sec" = false := by
  have h := verifyWebhook_never_throws (fun k p => k ++ ":" ++ p) "pay" "sec"
  exact ⟨h.1, h.2.1 "nope" (by decide)⟩

/-! ## Event dispatcher theorems -/

/-- Running the dispatch list of an operation through the host callbacks,
collecting the dispatcher's log next to the operation's untouched result. -/
def runWithCallbacks {α : Type} (cbs : Callbacks) (o : Outcome α) :
    Except String (Except JsError α × List String) := do
  let log ← runCallbacks cbs o.dispatched
  pure (o.result, log)

/-- The dispatcher never propagates an exception out of a dispatch list. -/
theorem runCallbacks_ok (cbs : Callbacks) (ds : List Dispatch) :
    ∃ log, runCallbacks cbs ds = .ok log := by
  induction ds with
  | nil => exact ⟨[], rfl⟩
  | cons d ds ih =>
    obtain ⟨log, hlog⟩ := ih
    have hemit : ∃ l, emit cbs d.callback = .ok l := by
      unfold emit
      cases h : cbs d.callback with
      | none => exact ⟨[], rfl⟩
      | some r =>
        cases r with
        | ok u => exact ⟨[], rfl⟩
        | error e => exact ⟨["callback error: " ++ e], rfl⟩
    obtain ⟨l, hl⟩ := hemit
    refine ⟨l ++ log, ?_⟩
    simp only [runCallbacks, hl, hlog]
    rfl

/-- C9: a callback that throws is caught by `emit` and turned into a log
line, and a verification or creation operation run together with its
callback dispatches still completes and returns its own result, whatever
the host callbacks do. -/
theorem callback_exceptions_isolated (cbs : Callbacks) (chargeId : String)
    (net : Except JsError Charge) (args : CreateOrderArgs)
    (tokenRes : Except JsError String) (onet : Except JsError CreateResponse)
    (st : MetaStore) :
    (∀ event err, cbs event = some (.error err) →
      emit cbs event = .ok ["callback error: " ++ err]) ∧
    (∃ log, runWithCallbacks cbs (verifyCharge chargeId net st) =
      .ok ((verifyCharge chargeId net st).result, log)) ∧
    (∃ log, runWithCallbacks cbs (createOrder args tokenRes onet st) =
      .ok ((createOrder args tokenRes onet st).result, log)) := by
  refine ⟨?_, ?_, ?_⟩
  · intro event err h
    unfold emit
    rw [h]
  · obtain ⟨log, hlog⟩ := runCallbacks_ok cbs (verifyCharge chargeId net st).dispatched
    exact ⟨log, by simp [runWithCallbacks, hlog]⟩
  · obtain ⟨log, hlog⟩ := runCallbacks_ok cbs (createOrder args tokenRes onet st).dispatched
    exact ⟨log, by simp [runWithCallbacks, hlog]⟩

/-- Concrete completed charge used by witnesses. -/
def sampleCharge : Charge where
  id := "CH-1"
  code := "C1"
  timeline := [{ status := "COMPLETED" }]
  pricing := { localPrice := { amount := 10, currency := "EUR" } }

/-- C9 witness: the isolation theorem applied to a callback registry whose
every callback throws, at a concrete completed charge verification. -/
theorem callback_exceptions_isolated_witness :
    emit (fun _ => some (.error "boom")) "onPaymentCompleted" =
      .ok ["callback error: " ++ "boom"] ∧
    (∃ log, runWithCallbacks (fun _ => some (.error "boom"))
      (verifyCharge "CH-1" (.ok sampleCharge) []) =
      .ok ((verifyCharge "CH-1" (.ok sampleCharge) []).result, log)) := by
  have h := callback_exceptions_isolated (fun _ => some (.error "boom")) "CH-1"
    (.ok sampleCharge)
    { title := none, price := none, customId := "1" } (.ok "tok") (.error (.http 500)) []
  exact ⟨h.1 "onPaymentCompleted" "boom" rfl, h.2.1⟩

/-! ## Payment extraction theorems -/

/-- C10: every `verifyOrder` call that returns a result — including the
`APPROVED` flow, where the capture response replaces the order response —
takes its amount and transaction id from the fallback chain over the
final response's first purchase unit: a first capture record supplies the
amount and its `custom_id` (falling back, via JS `||`, to the purchase
unit's `custom_id`); otherwise a present purchase-unit amount is used;
otherwise the amount defaults to 0 — never an error. -/
theorem verifyOrder_payment_fallback (orderId tok : String)
    (resp fresp : OrderResponse) (cap : Except JsError OrderResponse)
    (st : MetaStore)
    (hfinal : (if resp.status = "APPROVED" then cap else .ok resp) = .ok fresp) :
    (∃ r, (verifyOrder orderId (.ok tok) (.ok resp) cap st).result = .ok r ∧
      r.amount = (extractPayment (fresp.purchase_units.head?.getD {})).1 ∧
      r.transactionId = (extractPayment (fresp.purchase_units.head?.getD {})).2) ∧
    (∀ pu c, firstCapture pu = some c →
      extractPayment pu = (c.amount.value, jsOrStr c.custom_id pu.custom_id)) ∧
    (∀ pu a, firstCapture pu = none → pu.amount = some a →
      extractPayment pu = (a.value, pu.custom_id)) ∧
    (∀ pu, firstCapture pu = none → pu.amount = none →
      extractPayment pu = (0, pu.custom_id)) := by
  refine ⟨?_, ?_, ?_, ?_⟩
  · have h : (verifyOrder orderId (.ok tok) (.ok resp) cap st).result = .ok
        { provider := "paypal"
          type := "order"
          status := fresp.status
          transactionId := (extractPayment (fresp.purchase_units.head?.getD {})).2
          orderId := fresp.id
          amount := (extractPayment (fresp.purchase_units.head?.getD {})).1
          currency := extractCurrency (fresp.purchase_units.head?.getD {})
          metadata := (storeGet st orderId).getD []
          rawResponse := fresp } := by
      by_cases hap : resp.status = "APPROVED"
      · rw [if_pos hap] at hfinal
        simp [verifyOrder, hap, hfinal]
      · rw [if_neg hap] at hfinal
        injection hfinal with h2
        subst h2
        simp [verifyOrder, hap]
    exact ⟨_, h, rfl, rfl⟩
  · intro pu c h
    unfold extractPayment
    rw [h]
  · intro pu a h ha
    unfold extractPayment
    rw [h, ha]
  · intro pu h ha
    unfold extractPayment
    rw [h, ha]

/-- Concrete order response with a capture whose `custom_id` is absent. -/
def sampleCapturedOrder : OrderResponse where
  id := "ORD-1"
  status := "COMPLETED"
  purchase_units := [{ custom_id := some "777", payments := some { captures := [{ amount := { value := 10, currency_code := "EUR" } }] } }]

/-- Concrete order response fetched as `APPROVED`, triggering the capture
branch of `verifyOrder`. -/
def sampleApprovedOrder : OrderResponse where
  id := "ORD-1"
  status := "APPROVED"

/-- C10 witness: the fallback theorem applied to a concrete `APPROVED`
order whose capture response carries a single capture without a
`custom_id`, so the purchase unit's `custom_id` is used and the capture's
amount is returned. -/
theorem verifyOrder_payment_fallback_witness :
    (∃ r, (verifyOrder "ORD-1" (.ok "tok") (.ok sampleApprovedOrder)
        (.ok sampleCapturedOrder) []).result = .ok r ∧
      r.amount = (extractPayment (sampleCapturedOrder.purchase_units.head?.getD {})).1 ∧
      r.transactionId = (extractPayment (sampleCapturedOrder.purchase_units.head?.getD {})).2) ∧
    extractPayment (sampleCapturedOrder.purchase_units.head?.getD {}) = (10, some "777") := by
  have h := verifyOrder_payment_fallback "ORD-1" "tok" sampleApprovedOrder
    sampleCapturedOrder (.ok sampleCapturedOrder) [] (by decide)
  refine ⟨h.1, ?_⟩
  have hc := h.2.1 (sampleCapturedOrder.purchase_units.head?.getD {})
    { amount := { value := 10, currency_code := "EUR" } } (by decide)
  rw [hc]
  decide

/-! ## Amount rounding theorems -/

/-- The JS computation `parseFloat((price * quantity).toFixed(2))` agrees
with rounding to 2 decimal places. -/
theorem jsToFixed2_eq_specRound2 (q : ℚ) : jsToFixed2 q = specRound2 q := by
  unfold jsToFixed2 specRound2
  rw [round_eq]

/-- C6: for every valid creation input (truthy title and price) whose
provider call succeeds, the `amount` of the result returned by
`createOrder` and by `createCharge` equals `price × quantity` rounded to
2 decimal places. -/
theorem create_amount_rounded (args : CreateOrderArgs) (tok : String)
    (resp : CreateResponse) (link : Link) (cargs : CreateChargeArgs)
    (charge : Charge) (st : MetaStore)
    (ht : jsTruthyStr args.title = true) (hp : jsTruthyNum args.price = true)
    (hl : findApprove resp.links = some link)
    (hct : jsTruthyStr cargs.title = true) (hcp : jsTruthyNum cargs.price = true) :
    (∃ r, (createOrder args (.ok tok) (.ok resp) st).result = .ok r ∧
      r.amount = specRound2 (args.price.getD 0 * args.quantity)) ∧
    (∃ r, (createCharge cargs (.ok charge) st).result = .ok r ∧
      r.amount = specRound2 (cargs.price.getD 0 * cargs.quantity)) := by
  constructor
  · have h : (createOrder args (.ok tok) (.ok resp) st).result = .ok
        { provider := "paypal"
          type := "order"
          approvalUrl := link.href
          transactionId := args.customId
          orderId := resp.id
          amount := jsToFixed2 (args.price.getD 0 * args.quantity)
          currency := args.currency
          metadata := args.metadata
          rawResponse := resp } := by
      simp [createOrder, ht, hp, hl]
    exact ⟨_, h, jsToFixed2_eq_specRound2 _⟩
  · have h : (createCharge cargs (.ok charge) st).result = .ok
        { provider := "coinbase"
          type := "charge"
          hostedUrl := charge.hosted_url
          chargeId := charge.id
          chargeCode := charge.code
          amount := jsToFixed2 (cargs.price.getD 0 * cargs.quantity)
          currency := cargs.currency
          metadata := cargs.metadata
          rawResponse := charge } := by
      simp [createCharge, hct, hcp]
    exact ⟨_, h, jsToFixed2_eq_specRound2 _⟩

/-- Concrete `createOrder` arguments: a widget at 19.99, quantity 2. -/
def widgetOrderArgs : CreateOrderArgs where
  title := some "widget"
  price := some (1999 / 100)
  quantity := 2
  customId := "11111111111111111"

/-- Concrete provider response to a successful order creation. -/
def sampleCreateResponse : CreateResponse where
  id := "ORD-1"
  links := [{ rel := "approve", href := "https://provider/approve" }]

/-- Concrete `createCharge` arguments: a widget at 19.99, quantity 2. -/
def widgetChargeArgs : CreateChargeArgs where
  title := some "widget"
  price := some (1999 / 100)
  quantity := 2

/-- C6 witness: the rounding theorem applied to a 19.99 × 2 order and
charge, both of which come out at amount 39.98. -/
theorem create_amount_rounded_witness :
    (∃ r, (createOrder widgetOrderArgs (.ok "tok") (.ok sampleCreateResponse) []).result = .ok r ∧
      r.amount = specRound2 (widgetOrderArgs.price.getD 0 * widgetOrderArgs.quantity)) ∧
    (∃ r, (createCharge widgetChargeArgs (.ok sampleCharge) []).result = .ok r ∧
      r.amount = specRound2 (widgetChargeArgs.price.getD 0 * widgetChargeArgs.quantity)) ∧
    specRound2 (widgetOrderArgs.price.getD 0 * widgetOrderArgs.quantity) = 3998 / 100 := by
  have h := create_amount_rounded widgetOrderArgs "tok" sampleCreateResponse
    { rel := "approve", href := "https://provider/approve" } widgetChargeArgs sampleCharge []
    (by decide) (by norm_num [jsTruthyNum, widgetOrderArgs]) (by decide)
    (by decide) (by norm_num [jsTruthyNum, widgetChargeArgs])
  exact ⟨h.1, h.2, by norm_num [specRound2, widgetOrderArgs]⟩

/-! ## Credential cache theorems -/

/-- C5: after a first `getAccessToken` call whose cache check fails and
whose exchange succeeds with a non-empty token, a second call strictly
before the stored expiry (first call's time plus the fixed 1-hour window)
returns the identical cached token, performs no network exchange and
leaves the cache untouched; a call at or after that expiry performs
exactly one credential exchange and returns (and stores) the new token. -/
theorem token_cache_reuse (st0 : TokenState) (t0 t1 t2 : Int)
    (tok tok2 : String) (net1 : Except JsError String)
    (hfresh : (jsTruthyStr st0.tokenCache && expiryAfter st0.tokenExpiry t0) = false)
    (htok : tok ≠ "") (ht1 : t1 < t0 + 60 * 60 * 1000)
    (ht2 : t0 + 60 * 60 * 1000 ≤ t2) :
    (getAccessToken st0 t0 (.ok tok)).state =
      { tokenCache := some tok, tokenExpiry := some (t0 + 60 * 60 * 1000) } ∧
    (getAccessToken (getAccessToken st0 t0 (.ok tok)).state t1 net1).result = .ok tok ∧
    (getAccessToken (getAccessToken st0 t0 (.ok tok)).state t1 net1).exchanges = 0 ∧
    (getAccessToken (getAccessToken st0 t0 (.ok tok)).state t1 net1).state =
      (getAccessToken st0 t0 (.ok tok)).state ∧
    (getAccessToken (getAccessToken st0 t0 (.ok tok)).state t2 (.ok tok2)).exchanges = 1 ∧
    (getAccessToken (getAccessToken st0 t0 (.ok tok)).state t2 (.ok tok2)).result = .ok tok2 ∧
    (getAccessToken (getAccessToken st0 t0 (.ok tok)).state t2 (.ok tok2)).state.tokenCache =
      some tok2 := by
  have h1 : getAccessToken st0 t0 (.ok tok) =
      { result := .ok tok
        state := { tokenCache := some tok, tokenExpiry := some (t0 + 60 * 60 * 1000) }
        exchanges := 1
        dispatched := [] } := by
    unfold getAccessToken
    rw [if_neg (by simp [hfresh])]
  rw [h1]
  have hcached : (jsTruthyStr (some tok) &&
      expiryAfter (some (t0 + 60 * 60 * 1000)) t1) = true := by
    simp [jsTruthyStr, expiryAfter, htok]
    omega
  have hexpired : (jsTruthyStr (some tok) &&
      expiryAfter (some (t0 + 60 * 60 * 1000)) t2) = false := by
    have hx : expiryAfter (some (t0 + 60 * 60 * 1000)) t2 = false := by
      simp [expiryAfter]
      omega
    rw [hx, Bool.and_false]
  have h2 : getAccessToken
      { tokenCache := some tok, tokenExpiry := some (t0 + 60 * 60 * 1000) } t1 net1 =
      { result := .ok tok
        state := { tokenCache := some tok, tokenExpiry := some (t0 + 60 * 60 * 1000) }
        exchanges := 0
        dispatched := [] } := by
    unfold getAccessToken
    rw [if_pos (by exact hcached)]
    simp
  have h3 : getAccessToken
      { tokenCache := some tok, tokenExpiry := some (t0 + 60 * 60 * 1000) } t2 (.ok tok2) =
      { result := .ok tok2
        state := { tokenCache := some tok2, tokenExpiry := some (t2 + 60 * 60 * 1000) }
        exchanges := 1
        dispatched := [] } := by
    unfold getAccessToken
    rw [if_neg (by rw [hexpired]; simp)]
  rw [h2, h3]
  exact ⟨rfl, rfl, rfl, rfl, rfl, rfl, rfl⟩

/-- C5 witness: the cache-reuse theorem applied to a fresh adapter, a
first exchange at time 0 returning `T1`, a reuse at time 10, and an
expired call at exactly one hour returning `T2`. -/
theorem token_cache_reuse_witness :
    (getAccessToken {} 0 (.ok "T1")).state =
      { tokenCache := some "T1", tokenExpiry := some (0 + 60 * 60 * 1000) } ∧
    (getAccessToken (getAccessToken {} 0 (.ok "T1")).state 10 (.error (.http 500))).result =
      .ok "T1" ∧
    (getAccessToken (getAccessToken {} 0 (.ok "T1")).state 10 (.error (.http 500))).exchanges = 0 ∧
    (getAccessToken (getAccessToken {} 0 (.ok "T1")).state (0 + 60 * 60 * 1000) (.ok "T2")).exchanges = 1 ∧
    (getAccessToken (getAccessToken {} 0 (.ok "T1")).state (0 + 60 * 60 * 1000) (.ok "T2")).result =
      .ok "T2" := by
  have h := token_cache_reuse {} 0 10 (0 + 60 * 60 * 1000) "T1" "T2" (.error (.http 500))
    (by decide) (by decide) (by decide) (by decide)
  exact ⟨h.1, h.2.1, h.2.2.1, h.2.2.2.2.1, h.2.2.2.2.2.1⟩

/-! ## Metadata store keying (creation) -/

/-- Shape of a successful `createOrder` outcome. -/
theorem createOrder_success_eq (args : CreateOrderArgs) (tok : String)
    (resp : CreateResponse) (link : Link) (st : MetaStore)
    (ht : jsTruthyStr args.title = true) (hp : jsTruthyNum args.price = true)
    (hl : findApprove resp.links = some link) :
    createOrder args (.ok tok) (.ok resp) st =
      { result := .ok
          { provider := "paypal"
            type := "order"
            approvalUrl := link.href
            transactionId := args.customId
            orderId := resp.id
            amount := jsToFixed2 (args.price.getD 0 * args.quantity)
            currency := args.currency
            metadata := args.metadata
            rawResponse := resp }
        store := storeSet st resp.id args.metadata
        dispatched := [{ callback := "onPaymentCreated" }]
        scheduled := [(resp.id, 60 * 60 * 1000)] } := by
  simp [createOrder, ht, hp, hl]

/-- Shape of a successful `createSubscription` outcome. -/
theorem createSubscription_success_eq (sargs : CreateSubscriptionArgs)
    (tok : String) (sresp : CreateResponse) (slink : Link) (st : MetaStore)
    (hsp : jsTruthyStr sargs.planId = true)
    (hsl : findApprove sresp.links = some slink) :
    createSubscription sargs (.ok tok) (.ok sresp) st =
      { result := .ok
          { provider := "paypal"
            type := "subscription"
            approvalUrl := slink.href
            transactionId := sargs.customId
            subscriptionId := sresp.id
            planId := sargs.planId.getD ""
            metadata := sargs.metadata
            rawResponse := sresp }
        store := storeSet st sresp.id sargs.metadata
        dispatched := [{ callback := "onSubscriptionCreated" }]
        scheduled := [(sresp.id, 60 * 60 * 1000)] } := by
  simp [createSubscription, hsp, hsl]

/-- C1 counterexample: a successful `createOrder` returns transaction id
`11111111111111111` (the custom id), yet the Metadata Store afterwards
does not contain that key — the entry is stored under the provider's
order id `ORD-1` instead. -/
theorem createOrder_transactionId_not_store_key :
    ((okResult (createOrder widgetOrderArgs (.ok "tok") (.ok sampleCreateResponse) [])).map
      (fun r => r.transactionId)) = some "11111111111111111" ∧
    storeContains (createOrder widgetOrderArgs (.ok "tok") (.ok sampleCreateResponse) []).store
      "11111111111111111" = false ∧
    storeContains (createOrder widgetOrderArgs (.ok "tok") (.ok sampleCreateResponse) []).store
      "ORD-1" = true := by
  have ho := createOrder_success_eq widgetOrderArgs "tok" sampleCreateResponse
    { rel := "approve", href := "https://provider/approve" } []
    (by decide) (by norm_num [jsTruthyNum, widgetOrderArgs]) (by decide)
  rw [ho]
  exact ⟨rfl, by decide, by decide⟩

/-- C1 amended: immediately after a successful `createOrder` or
`createSubscription`, the caller-supplied metadata is present in the
Metadata Store under the provider-assigned id (returned as `orderId` /
`subscriptionId`) — not under the returned `transactionId` (the custom
id), unless the two coincide — and a deletion of that key is scheduled at
the fixed 1-hour TTL (so the entry exists from creation until
verification deletes it or that TTL fires, whichever comes first). -/
theorem created_entry_keyed_by_provider_id (args : CreateOrderArgs)
    (sargs : CreateSubscriptionArgs) (tok : String) (resp sresp : CreateResponse)
    (link slink : Link) (st : MetaStore)
    (ht : jsTruthyStr args.title = true) (hp : jsTruthyNum args.price = true)
    (hl : findApprove resp.links = some link)
    (hsp : jsTruthyStr sargs.planId = true)
    (hsl : findApprove sresp.links = some slink) :
    (∃ r, (createOrder args (.ok tok) (.ok resp) st).result = .ok r ∧
      r.orderId = resp.id ∧ r.transactionId = args.customId) ∧
    storeContains (createOrder args (.ok tok) (.ok resp) st).store resp.id = true ∧
    storeGet (createOrder args (.ok tok) (.ok resp) st).store resp.id = some args.metadata ∧
    (createOrder args (.ok tok) (.ok resp) st).scheduled = [(resp.id, 60 * 60 * 1000)] ∧
    (∃ r, (createSubscription sargs (.ok tok) (.ok sresp) st).result = .ok r ∧
      r.subscriptionId = sresp.id ∧ r.transactionId = sargs.customId) ∧
    storeContains (createSubscription sargs (.ok tok) (.ok sresp) st).store sresp.id = true ∧
    storeGet (createSubscription sargs (.ok tok) (.ok sresp) st).store sresp.id =
      some sargs.metadata := by
  rw [createOrder_success_eq args tok resp link st ht hp hl,
    createSubscription_success_eq sargs tok sresp slink st hsp hsl]
  refine ⟨⟨_, rfl, rfl, rfl⟩, ?_, ?_, rfl, ⟨_, rfl, rfl, rfl⟩, ?_, ?_⟩
  · exact storeContains_storeSet st resp.id args.metadata
  · exact storeGet_storeSet st resp.id args.metadata
  · exact storeContains_storeSet st sresp.id sargs.metadata
  · exact storeGet_storeSet st sresp.id sargs.metadata

/-- Concrete `createSubscription` arguments used by witnesses. -/
def sampleSubscriptionArgs : CreateSubscriptionArgs where
  planId := some "P-1"
  customId := "22222222222222222"
  metadata := [("user", "u1")]

/-- Concrete provider response to a successful subscription creation. -/
def sampleSubCreateResponse : CreateResponse where
  id := "SUB-1"
  links := [{ rel := "approve", href := "https://provider/approve-sub" }]

/-- C1 witness: the amended keying theorem applied to a concrete order and
subscription creation. -/
theorem created_entry_keyed_by_provider_id_witness :
    storeContains (createOrder widgetOrderArgs (.ok "tok") (.ok sampleCreateResponse) []).store
      "ORD-1" = true ∧
    (createOrder widgetOrderArgs (.ok "tok") (.ok sampleCreateResponse) []).scheduled =
      [("ORD-1", 60 * 60 * 1000)] ∧
    storeContains (createSubscription sampleSubscriptionArgs (.ok "tok")
      (.ok sampleSubCreateResponse) []).store "SUB-1" = true ∧
    storeGet (createSubscription sampleSubscriptionArgs (.ok "tok")
      (.ok sampleSubCreateResponse) []).store "SUB-1" = some [("user", "u1")] := by
  have h := created_entry_keyed_by_provider_id widgetOrderArgs sampleSubscriptionArgs "tok"
    sampleCreateResponse sampleSubCreateResponse
    { rel := "approve", href := "https://provider/approve" }
    { rel := "approve", href := "https://provider/approve-sub" } []
    (by decide) (by norm_num [jsTruthyNum, widgetOrderArgs]) (by decide) (by decide) (by decide)
  exact ⟨h.2.1, h.2.2.2.1, h.2.2.2.2.2.1, h.2.2.2.2.2.2⟩

/-! ## Status normalization and dispatch -/

/-- Concrete subscription response with the unmapped status `SUSPENDED`. -/
def sampleSuspendedSubscription : SubscriptionResponse where
  id := "SUB-1"
  status := "SUSPENDED"
  plan_id := "P-1"

/-- Concrete charge whose last timeline entry is the unmapped status
`PENDING`. -/
def samplePendingCharge : Charge where
  id := "CH-2"
  code := "C2"
  timeline := [{ status := "NEW" }, { status := "PENDING" }]
  pricing := { localPrice := { amount := 10, currency := "EUR" } }

/-- C3 counterexample: a `verifySubscription` call returning the unmapped
status `SUSPENDED` and a `verifyCharge` call whose last timeline status is
the unmapped `PENDING` both complete without dispatching any callback at
all — in particular the failed callback does not fire, the event is
dropped. -/
theorem unmapped_status_drops_event :
    (verifySubscription "SUB-1" (.ok "tok") (.ok sampleSuspendedSubscription) []).dispatched
      = [] ∧
    (verifyCharge "CH-2" (.ok samplePendingCharge) []).dispatched = [] := by
  constructor
  · simp [verifySubscription, sampleSuspendedSubscription, subscriptionDispatch]
  · simp [verifyCharge, samplePendingCharge, chargeDispatch, latestStatus]

/-- C3 amended: each successful `verifyOrder` — including the `APPROVED`
flow, where the capture response supplies the final status — dispatches
exactly one lifecycle callback, with every status outside the
normalization table mapped to `onPaymentFailed`; by contrast
`verifySubscription` dispatches only for `ACTIVE` and `CANCELLED` and
`verifyCharge` only for `COMPLETED`, `CANCELED`, `EXPIRED` and
`UNRESOLVED` of the last timeline entry — for any other (or missing)
status they dispatch no lifecycle callback, dropping the event. -/
theorem verification_dispatch_characterized (orderId subId chId tok : String)
    (resp fresp : OrderResponse) (sresp : SubscriptionResponse) (charge : Charge)
    (cap : Except JsError OrderResponse) (st : MetaStore)
    (hfinal : (if resp.status = "APPROVED" then cap else .ok resp) = .ok fresp) :
    (verifyOrder orderId (.ok tok) (.ok resp) cap st).dispatched =
      [orderDispatch fresp.status] ∧
    (∀ s, s ≠ "COMPLETED" → s ≠ "VOIDED" → s ≠ "CANCELLED" →
      orderDispatch s = { callback := "onPaymentFailed" }) ∧
    (verifySubscription subId (.ok tok) (.ok sresp) st).dispatched =
      subscriptionDispatch sresp.status ∧
    (∀ s, s ≠ "ACTIVE" → s ≠ "CANCELLED" → subscriptionDispatch s = []) ∧
    (verifyCharge chId (.ok charge) st).dispatched =
      chargeDispatch (latestStatus charge) ∧
    (∀ os, os ≠ some "COMPLETED" → os ≠ some "CANCELED" → os ≠ some "EXPIRED" →
      os ≠ some "UNRESOLVED" → chargeDispatch os = []) := by
  refine ⟨?_, ?_, ?_, ?_, ?_, ?_⟩
  · by_cases hap : resp.status = "APPROVED"
    · rw [if_pos hap] at hfinal
      simp [verifyOrder, hap, hfinal]
    · rw [if_neg hap] at hfinal
      injection hfinal with h2
      subst h2
      simp [verifyOrder, hap]
  · intro s h1 h2 h3
    unfold orderDispatch
    rw [if_neg h1, if_neg (by simp [h2, h3])]
  · simp [verifySubscription]
  · intro s h1 h2
    unfold subscriptionDispatch
    rw [if_neg h1, if_neg h2]
  · simp [verifyCharge]
  · intro os h1 h2 h3 h4
    unfold chargeDispatch
    rw [if_neg h1, if_neg h2, if_neg (by simp [h3, h4])]

/-- C3 witness: the dispatch characterization applied to a concrete
approved-then-captured order, suspended subscription and pending charge,
with every status hypothesis discharged concretely. -/
theorem verification_dispatch_characterized_witness :
    (verifyOrder "ORD-1" (.ok "tok") (.ok sampleApprovedOrder)
      (.ok sampleCapturedOrder) []).dispatched =
      [orderDispatch sampleCapturedOrder.status] ∧
    orderDispatch "PENDING_APPROVAL" = { callback := "onPaymentFailed" } ∧
    subscriptionDispatch "SUSPENDED" = [] ∧
    chargeDispatch (some "PENDING") = [] := by
  have h := verification_dispatch_characterized "ORD-1" "SUB-1" "CH-2" "tok"
    sampleApprovedOrder sampleCapturedOrder sampleSuspendedSubscription samplePendingCharge
    (.ok sampleCapturedOrder) [] (by decide)
  refine ⟨h.1, ?_, ?_, ?_⟩
  · exact h.2.1 "PENDING_APPROVAL" (by decide) (by decide) (by decide)
  · exact h.2.2.2.1 "SUSPENDED" (by decide) (by decide)
  · exact h.2.2.2.2.2 (some "PENDING") (by decide) (by decide) (by decide) (by decide)

/-! ## Error reporting on creation -/

/-- Concrete `createOrder` arguments with the title absent. -/
def untitledOrderArgs : CreateOrderArgs where
  title := none
  price := some 10
  customId := "33333333333333333"

/-- C7 counterexample: `createOrder` without a title fails synchronously
with the validation error, but dispatches no callback at all — in
particular the `error` callback does not fire, because the validation
throw precedes the try/catch that reports `order_creation` errors. -/
theorem validation_error_not_dual_reported :
    (createOrder untitledOrderArgs (.ok "tok") (.ok sampleCreateResponse) []).result =
      .error (.validation "missing title") ∧
    (createOrder untitledOrderArgs (.ok "tok") (.ok sampleCreateResponse) []).dispatched
      = [] := by
  constructor
  · simp [createOrder, untitledOrderArgs, jsTruthyStr]
  · simp [createOrder, untitledOrderArgs, jsTruthyStr]

/-- C7 amended: `createOrder` with an absent (or falsy) `title` or `price`
fails synchronously with the matching validation error and fires no
callback; only errors raised inside the try block — a failing provider
call, or a creation response without an approval link — are dual-reported,
rethrown to the caller and dispatched via the `error` callback with type
tag `order_creation`. -/
theorem createOrder_error_reporting (args : CreateOrderArgs) (tok : String)
    (e : JsError) (net : Except JsError CreateResponse) (resp : CreateResponse)
    (st : MetaStore) :
    (jsTruthyStr args.title = false →
      (createOrder args (.ok tok) net st).result = .error (.validation "missing title") ∧
      (createOrder args (.ok tok) net st).dispatched = []) ∧
    (jsTruthyStr args.title = true → jsTruthyNum args.price = false →
      (createOrder args (.ok tok) net st).result = .error (.validation "missing price") ∧
      (createOrder args (.ok tok) net st).dispatched = []) ∧
    (jsTruthyStr args.title = true → jsTruthyNum args.price = true →
      (createOrder args (.ok tok) (.error e) st).result = .error e ∧
      (createOrder args (.ok tok) (.error e) st).dispatched =
        [{ callback := "onError", errorType := some "order_creation" }]) ∧
    (jsTruthyStr args.title = true → jsTruthyNum args.price = true →
      findApprove resp.links = none →
      (createOrder args (.ok tok) (.ok resp) st).dispatched =
        [{ callback := "onError", errorType := some "order_creation" }]) := by
  refine ⟨?_, ?_, ?_, ?_⟩
  · intro ht
    constructor <;> simp [createOrder, ht]
  · intro ht hp
    constructor <;> simp [createOrder, ht, hp]
  · intro ht hp
    constructor <;> simp [createOrder, ht, hp]
  · intro ht hp hl
    simp [createOrder, ht, hp, hl]

/-- C7 witness: the error-reporting theorem applied to a concrete
missing-title call, a concrete missing-price call and a concrete provider
failure. -/
theorem createOrder_error_reporting_witness :
    (createOrder untitledOrderArgs (.ok "tok") (.ok sampleCreateResponse) []).result =
      .error (.validation "missing title") ∧
    (createOrder untitledOrderArgs (.ok "tok") (.ok sampleCreateResponse) []).dispatched = [] ∧
    (createOrder widgetOrderArgs (.ok "tok") (.error (.http 500)) []).result =
      .error (.http 500) ∧
    (createOrder widgetOrderArgs (.ok "tok") (.error (.http 500)) []).dispatched =
      [{ callback := "onError", errorType := some "order_creation" }] := by
  have h1 := createOrder_error_reporting untitledOrderArgs "tok" (.http 500)
    (.ok sampleCreateResponse) sampleCreateResponse []
  have h2 := createOrder_error_reporting widgetOrderArgs "tok" (.http 500)
    (.error (.http 500)) sampleCreateResponse []
  have hv := h1.1 (by decide)
  have hp := h2.2.2.1 (by decide) (by norm_num [jsTruthyNum, widgetOrderArgs])
  exact ⟨hv.1, hv.2, hp.1, hp.2⟩

end DSyncPay
